import Mathlib

/-!
Verification of the mozc repository's two core source files against its
natural-language specification.

Part 1 embeds `src/dictionary/user_pos.h`: the packed 8-byte token record
array, its random-access iterator (raw `const char *` pointer arithmetic in
units of 8-byte records) and the `Token::Attribute` bitset operations.

Part 2 embeds `src/renderer/renderer_client.cc`: the `RendererLauncher`
lifecycle state machine (`CanConnect`, `SetPendingCommand`,
`FlushPendingCommand`, `Run`, `StartRenderer`) and
`RendererClient::ExecCommand` with its dispatch gates, modelled as pure
state-transition functions returning `Option` (with `none` marking paths
that dereference a null pointer, i.e. undefined behavior in the C++).

All definitions come first, followed by the lemmas and claim theorems.
-/

namespace Mozc

/-! ## Part 1: dictionary/user_pos.h — definitions -/

namespace UserPos

/-- `UserPos::kTokenByteLength` (user_pos.h): each token record is 8 bytes. -/
def kTokenByteLength : Nat := 8

/-- Reads the little-endian `uint16_t` stored at byte offset `off` of a byte
buffer (`*reinterpret_cast<const uint16_t *>(ptr + off)` on little-endian).
Bytes are Nats `< 256`; out-of-range reads yield byte 0. -/
def readU16 (data : List Nat) (off : Nat) : Nat :=
  data.getD off 0 + 256 * data.getD (off + 1) 0

/-- The four fields of one unpacked 8-byte token record (user_pos.h binary
format comment: POS index, value suffix index, key suffix index,
conjugation ID, each a little-endian `uint16_t`). -/
structure TokenRecord where
  pos_index : Nat
  value_suffix_index : Nat
  key_suffix_index : Nat
  conjugation_id : Nat
deriving DecidableEq, Repr

/-- The record stored at record index `i` of the token array: the four
little-endian `uint16_t` fields at byte offsets `8*i`, `8*i+2`, `8*i+4`,
`8*i+6`. -/
def tokenRecord (data : List Nat) (i : Nat) : TokenRecord :=
  { pos_index := readU16 data (8 * i)
    value_suffix_index := readU16 data (8 * i + 2)
    key_suffix_index := readU16 data (8 * i + 4)
    conjugation_id := readU16 data (8 * i + 6) }

/-- `UserPos::iterator` (user_pos.h): wraps a raw `const char *ptr_`.
Addresses are modelled as integers (byte offsets from an arbitrary base). -/
structure Iterator where
  ptr : Int
deriving DecidableEq, Repr

/-- `iterator::pos_index()`: `*reinterpret_cast<const uint16_t *>(ptr_)`.
`data` is the byte buffer the pointer points into, at base address 0. -/
def Iterator.pos_index (data : List Nat) (x : Iterator) : Nat :=
  readU16 data x.ptr.toNat

/-- `iterator::value_suffix_index()`: the `uint16_t` at `ptr_ + 2`. -/
def Iterator.value_suffix_index (data : List Nat) (x : Iterator) : Nat :=
  readU16 data (x.ptr.toNat + 2)

/-- `iterator::key_suffix_index()`: the `uint16_t` at `ptr_ + 4`. -/
def Iterator.key_suffix_index (data : List Nat) (x : Iterator) : Nat :=
  readU16 data (x.ptr.toNat + 4)

/-- `iterator::conjugation_id()`: the `uint16_t` at `ptr_ + 6`. -/
def Iterator.conjugation_id (data : List Nat) (x : Iterator) : Nat :=
  readU16 data (x.ptr.toNat + 6)

/-- `iterator::operator*()` (user_pos.h line 147): `return pos_index();`.
Dereference yields a single `uint16_t`, the POS index. -/
def Iterator.deref (data : List Nat) (x : Iterator) : Nat :=
  x.pos_index data

/-- `operator++` (pre): `ptr_ += kTokenByteLength`. -/
def Iterator.inc (x : Iterator) : Iterator :=
  ⟨x.ptr + (kTokenByteLength : Int)⟩

/-- `operator--` (pre): `ptr_ -= kTokenByteLength`. -/
def Iterator.dec (x : Iterator) : Iterator :=
  ⟨x.ptr - (kTokenByteLength : Int)⟩

/-- `operator+(iterator, n)`: `iterator(x.ptr_ + n * kTokenByteLength)`. -/
def Iterator.add (x : Iterator) (n : Int) : Iterator :=
  ⟨x.ptr + n * (kTokenByteLength : Int)⟩

/-- `operator-(iterator, n)`: `iterator(x.ptr_ - n * kTokenByteLength)`. -/
def Iterator.sub (x : Iterator) (n : Int) : Iterator :=
  ⟨x.ptr - n * (kTokenByteLength : Int)⟩

/-- `operator-(iterator, iterator)` (user_pos.h line 201):
`(x.ptr_ - y.ptr_) / kTokenByteLength`.  `kTokenByteLength` is a `size_t`
(line 84), so the usual arithmetic conversions make this an UNSIGNED
division: the signed byte difference is converted to `uint64_t` (reduced
mod `2^64`, hence nonnegative — `Int` `%` is Euclidean), divided, and the
quotient (always `< 2^61`) converted back to the signed
`difference_type`. -/
def Iterator.diff (x y : Iterator) : Int :=
  Int.ofNat ((((x.ptr - y.ptr) % (2 ^ 64)).toNat) / kTokenByteLength)

/-- `UserPos::begin()`: `iterator(token_array_data_.data())`; the buffer
starts at address `base`. -/
def beginIt (base : Int) : Iterator :=
  ⟨base⟩

/-- `UserPos::end()`:
`iterator(token_array_data_.data() + token_array_data_.size())`. -/
def endIt (base : Int) (size : Nat) : Iterator :=
  ⟨base + (size : Int)⟩

/-- Two 8-byte records sharing a POS index (5) but differing in the other
three fields. -/
def twoRecordBytes : List Nat :=
  [5, 0, 1, 0, 2, 0, 3, 0, 5, 0, 9, 0, 9, 0, 9, 0]

namespace Token

/-- `Token::Attribute::SHORTCUT` (user_pos.h). -/
def SHORTCUT : Nat := 1

/-- `Token::Attribute::ISOLATED_WORD` (user_pos.h). -/
def ISOLATED_WORD : Nat := 2

/-- `Token::Attribute::SUGGESTION_ONLY` (user_pos.h). -/
def SUGGESTION_ONLY : Nat := 4

/-- `Token::Attribute::NON_JA_LOCALE` (user_pos.h). -/
def NON_JA_LOCALE : Nat := 8

/-- `Token::add_attribute`: `attributes |= attr`. The `attributes` field is a
`uint16_t`; or-ing with a flag `< 2^16` stays within 16 bits. -/
def add_attribute (attributes attr : Nat) : Nat :=
  attributes ||| attr

/-- `Token::has_attribute`: `return attributes & attr;` converted to bool,
i.e. the bitwise and is nonzero. -/
def has_attribute (attributes attr : Nat) : Bool :=
  attributes &&& attr != 0

/-- `Token::remove_attribute`: `attributes &= ~attr`. On the 16-bit
`attributes` field the integer complement `~attr` acts as the 16-bit
complement, i.e. `0xFFFF ^^^ attr` for `attr < 2^16`. -/
def remove_attribute (attributes attr : Nat) : Nat :=
  attributes &&& (65535 ^^^ attr)

/-- The four declared attribute flag values. -/
def IsAttributeFlag (a : Nat) : Prop :=
  a = SHORTCUT ∨ a = ISOLATED_WORD ∨ a = SUGGESTION_ONLY ∨ a = NON_JA_LOCALE

instance (a : Nat) : Decidable (IsAttributeFlag a) := by
  unfold IsAttributeFlag
  infer_instance

end Token

end UserPos

end Mozc

namespace Mozc.Renderer

/-! ## Part 2: renderer/renderer_client.cc — definitions

The launcher and client are embedded as pure state-transition functions.
External collaborators (the IPC client produced by the factory, the
rendezvous listener, the process spawn, the clock) are supplied as explicit
environment values, mirroring how the source injects them through
`IPCClientFactoryInterface` and the platform helpers.  Observable actions
are collected in an effect list.  A result of `none` marks a C++ execution
that dereferences a null pointer (undefined behavior). -/

/-- `commands::RendererCommand::CommandType` (the subset the client
inspects: `type` of `NOOP`, `UPDATE` or `SHUTDOWN`). -/
inductive CommandType
  | NOOP
  | UPDATE
  | SHUTDOWN
deriving DecidableEq, Repr

/-- The fields of `commands::RendererCommand` that renderer_client.cc reads:
`type()`, `visible()` and `has_output()`. -/
structure RendererCommand where
  type : CommandType
  visible : Bool
  has_output : Bool
deriving DecidableEq, Repr

/-- `RendererLauncher::RendererStatus` (renderer_client.cc). -/
inductive RendererStatus
  | RENDERER_UNKNOWN
  | RENDERER_LAUNCHING
  | RENDERER_READY
  | RENDERER_TIMEOUT
  | RENDERER_TERMINATED
  | RENDERER_FATAL
deriving DecidableEq, Repr

/-- `RendererLauncherInterface::RendererErrorType`. -/
inductive RendererErrorType
  | RENDERER_VERSION_MISMATCH
  | RENDERER_FATAL
deriving DecidableEq, Repr

/-- The IPC error variants the client distinguishes: `IPC_TIMEOUT_ERROR`
versus everything else (`ipc/ipc.h`, outside src/; only the equality test
with `IPC_TIMEOUT_ERROR` matters to this file). -/
inductive IPCError
  | IPC_NO_ERROR
  | IPC_TIMEOUT_ERROR
  | IPC_OTHER_ERROR
deriving DecidableEq, Repr

/-- The behavior of one `IPCClientInterface` object as observed through the
calls renderer_client.cc makes on it: `Connected()`, `GetLastIPCError()`,
`GetServerProtocolVersion()`, and the outcome of
`Version::CompareVersion(GetServerProductVersion(), Version::GetMozcVersion())`
(the dotted-numeric comparator lives in base/version.cc, outside src/, so
only its boolean outcome is modelled). -/
structure IPCClientSpec where
  connected : Bool
  lastIPCError : IPCError
  serverProtocolVersion : Nat
  serverProductOlder : Bool
deriving DecidableEq, Repr

/-- `kMaxErrorTimes` (renderer_client.cc line 66). -/
def kMaxErrorTimes : Nat := 5

/-- `kRetryIntervalTime` (renderer_client.cc line 67), in seconds. -/
def kRetryIntervalTime : Nat := 30

/-- `kMaxVersionMismatchNums` (renderer_client.cc line 432). -/
def kMaxVersionMismatchNums : Nat := 3

/-- `INT_MAX`, assigned to `version_mismatch_nums_` on a client-older
protocol mismatch. -/
def INT_MAX : Nat := 2147483647

/-- The mutable state of `RendererLauncher` that the embedded operations
read and write: `renderer_status_`, `error_times_`, `last_launch_time_`,
`pending_command_`, and whether `ipc_client_factory_interface_` is non-null
(set by `StartRenderer`).  `name_`, `path_` and the two dialog flags do not
influence any claim and are omitted. -/
structure LauncherState where
  renderer_status : RendererStatus
  error_times : Nat
  last_launch_time : Nat
  pending_command : Option RendererCommand
  hasFactory : Bool
deriving DecidableEq, Repr

/-- Observable actions performed by the embedded operations. -/
inductive Effect
  | createClient
  | callIPC (c : RendererCommand)
  | startRenderer
  | forceTerminateRenderer
  | onFatal (t : RendererErrorType)
deriving DecidableEq, Repr

/-- Number of `CallCommand` IPC sends in an effect list. -/
def countSends (effs : List Effect) : Nat :=
  (effs.filter fun e =>
    match e with
    | Effect.callIPC _ => true
    | _ => false).length

/-- `RendererLauncher::CanConnect` (renderer_client.cc lines 86-111).
`now` is `Clock::GetTime()`.  The `uint64_t` subtraction
`now - last_launch_time_` is modelled with truncated Nat subtraction, which
agrees with the C++ whenever the clock has not moved backwards past the
last launch. -/
def CanConnect (now : Nat) (s : LauncherState) : Bool :=
  match s.renderer_status with
  | RendererStatus.RENDERER_UNKNOWN => true
  | RendererStatus.RENDERER_READY => true
  | RendererStatus.RENDERER_LAUNCHING => false
  | RendererStatus.RENDERER_TIMEOUT =>
      decide (s.error_times ≤ kMaxErrorTimes) &&
        decide (kRetryIntervalTime ≤ now - s.last_launch_time)
  | RendererStatus.RENDERER_TERMINATED =>
      decide (s.error_times ≤ kMaxErrorTimes) &&
        decide (kRetryIntervalTime ≤ now - s.last_launch_time)
  | RendererStatus.RENDERER_FATAL => false

/-- `RendererLauncher::IsAvailable`. -/
def IsAvailable (s : LauncherState) : Bool :=
  s.renderer_status = RendererStatus.RENDERER_READY

/-- `RendererLauncher::SetPendingCommand` (renderer_client.cc lines
234-243): NOOP and SHUTDOWN are ignored; an UPDATE overwrites the single
slot. -/
def SetPendingCommand (c : RendererCommand) (s : LauncherState) : LauncherState :=
  if c.type = CommandType.UPDATE then { s with pending_command := some c } else s

/-- `RendererLauncher::CreateIPCClient` (renderer_client.cc lines 293-301):
null when the stored factory pointer is null, otherwise the factory's
`NewClient` result (`newClient`; null is possible).  The only difference
`disable_renderer_path_check_` makes is the expected-path argument, which
is invisible at this level. -/
def LauncherCreateIPCClient (newClient : Option IPCClientSpec) (s : LauncherState) :
    Option IPCClientSpec :=
  if s.hasFactory then newClient else none

/-- `RendererLauncher::FlushPendingCommand` (renderer_client.cc lines
276-291), verbatim: if the factory is configured and a command is pending,
create a client and — only when the client pointer is NULL — call
`CallCommand(client.get(), ...)`, which dereferences the null pointer
(`none`).  When the client is non-null no send happens.  Afterwards the
slot is cleared, the status set to `RENDERER_READY` and `error_times_`
reset to 0. -/
def FlushPendingCommand (newClient : Option IPCClientSpec) (s : LauncherState) :
    Option (LauncherState × List Effect) :=
  let finish := fun (effs : List Effect) =>
    some ({ s with pending_command := none,
                   renderer_status := RendererStatus.RENDERER_READY,
                   error_times := 0 }, effs)
  if s.hasFactory ∧ s.pending_command.isSome then
    match LauncherCreateIPCClient newClient s with
    | none => none
    | some _ => finish [Effect.createClient]
  else finish []

/-- `NamedEventListener::WaitEventOrProcess` outcomes (ipc/named_event.h,
outside src/). -/
inductive WaitResult
  | TIMEOUT
  | EVENT_SIGNALED
  | PROCESS_SIGNALED
  | OTHER
deriving DecidableEq, Repr

/-- The external inputs consumed by one execution of
`RendererLauncher::Run`: the clock at entry, whether the
`NamedEventListener` is available, whether the platform spawn succeeded,
the rendezvous wait outcome, and the factory's `NewClient` result should
`FlushPendingCommand` create a client. -/
structure RunEnv where
  now : Nat
  listenerAvailable : Bool
  spawnOk : Bool
  waitResult : WaitResult
  newClient : Option IPCClientSpec
deriving DecidableEq, Repr

/-- `RendererLauncher::Run` (renderer_client.cc lines 129-207): record the
launch time; on spawn failure become `RENDERER_FATAL` and return (the
early return skips the final `OnFatal` check); with a listener, dispatch on
the rendezvous outcome — timeout and process-exit bump `error_times_`,
event-signaled flushes the pending command and becomes ready, an unknown
outcome becomes `RENDERER_FATAL` and triggers `OnFatal(RENDERER_FATAL)`;
without a listener, sleep 10 s, flush, and become ready. -/
def Run (env : RunEnv) (s : LauncherState) : Option (LauncherState × List Effect) :=
  let s := { s with last_launch_time := env.now }
  if !env.spawnOk then
    some ({ s with renderer_status := RendererStatus.RENDERER_FATAL }, [])
  else if env.listenerAvailable then
    match env.waitResult with
    | WaitResult.TIMEOUT =>
        some ({ s with renderer_status := RendererStatus.RENDERER_TIMEOUT,
                       error_times := s.error_times + 1 }, [])
    | WaitResult.EVENT_SIGNALED =>
        match FlushPendingCommand env.newClient s with
        | none => none
        | some (s1, effs) =>
            some ({ s1 with renderer_status := RendererStatus.RENDERER_READY,
                            error_times := 0 }, effs)
    | WaitResult.PROCESS_SIGNALED =>
        some ({ s with renderer_status := RendererStatus.RENDERER_TERMINATED,
                       error_times := s.error_times + 1 }, [])
    | WaitResult.OTHER =>
        some ({ s with renderer_status := RendererStatus.RENDERER_FATAL,
                       error_times := s.error_times + 1 },
              [Effect.onFatal RendererErrorType.RENDERER_FATAL])
  else
    match FlushPendingCommand env.newClient s with
    | none => none
    | some (s1, effs) =>
        some ({ s1 with renderer_status := RendererStatus.RENDERER_READY,
                        error_times := 0 }, effs)

/-- `RendererLauncher::StartRenderer` (renderer_client.cc lines 117-127):
set the status to `RENDERER_LAUNCHING`, store the factory pointer, and
start the worker thread (whose body `Run` is modelled as a separate step). -/
def StartRenderer (factoryConfigured : Bool) (s : LauncherState) :
    LauncherState × List Effect :=
  ({ s with renderer_status := RendererStatus.RENDERER_LAUNCHING,
            hasFactory := factoryConfigured },
   [Effect.startRenderer])

/-- The mutable state of `RendererClient`: `is_window_visible_`,
`disable_renderer_path_check_`, `version_mismatch_nums_`, whether
`renderer_launcher_interface_` and `ipc_client_factory_interface_` are
non-null, and the launcher's own state. -/
structure ClientState where
  is_window_visible : Bool
  disable_renderer_path_check : Bool
  version_mismatch_nums : Nat
  hasLauncher : Bool
  hasFactory : Bool
  launcher : LauncherState
deriving DecidableEq, Repr

/-- The external inputs consumed by one `RendererClient::ExecCommand` (or
`Activate` / `Shutdown`) call: the clock, the factory's `NewClient` result,
the compile-time `IPC_PROTOCOL_VERSION` constant (ipc/ipc.h, outside src/),
and whether `IPCClient::TerminateServer` succeeds. -/
structure ExecEnv where
  now : Nat
  newClient : Option IPCClientSpec
  ipcProtocolVersion : Nat
  forceTerminateOk : Bool
deriving DecidableEq, Repr

/-- `RendererClient::CreateIPCClient` (renderer_client.cc lines 502-510):
null when the factory pointer is null, else the factory's `NewClient`
result. -/
def ClientCreateIPCClient (env : ExecEnv) (st : ClientState) : Option IPCClientSpec :=
  if st.hasFactory then env.newClient else none

/-- The `shutdown_command` built in the product-version-mismatch branch of
`ExecCommand`: a default protobuf with `type` set to `SHUTDOWN`. -/
def shutdownCommand : RendererCommand :=
  { type := CommandType.SHUTDOWN, visible := false, has_output := false }

/-- The part of `RendererClient::ExecCommand` after the connectability gate
(renderer_client.cc lines 431-499): the version-mismatch drop, client
creation (no null check — `client->GetLastIPCError()` on a null client is
undefined behavior, `none`), the timeout-error bail-out, recording
`is_window_visible_`, the not-connected branch (HIDE discard or pend +
`StartRenderer`), the two protocol-version branches, the product-version
branch, and the final `CallCommand`. -/
def ExecCore (env : ExecEnv) (st : ClientState) (c : RendererCommand) :
    Option (Bool × ClientState × List Effect) :=
  if st.version_mismatch_nums ≥ kMaxVersionMismatchNums then
    some (true, st, [])
  else
    match ClientCreateIPCClient env st with
    | none => none
    | some client =>
      if client.lastIPCError = IPCError.IPC_TIMEOUT_ERROR then
        some (false, st, [Effect.createClient])
      else
        let st := { st with is_window_visible := c.visible }
        if !client.connected then
          if c.type = CommandType.UPDATE ∧ (!st.is_window_visible ∨ !c.has_output) then
            some (true, st, [Effect.createClient])
          else
            let st := { st with launcher := SetPendingCommand c st.launcher }
            let started := StartRenderer st.hasFactory st.launcher
            some (true, { st with launcher := started.1 },
                  [Effect.createClient] ++ started.2)
        else if env.ipcProtocolVersion > client.serverProtocolVersion then
          some (true,
                { st with version_mismatch_nums := st.version_mismatch_nums + 1,
                          launcher := SetPendingCommand c st.launcher },
                [Effect.createClient, Effect.forceTerminateRenderer])
        else if env.ipcProtocolVersion < client.serverProtocolVersion then
          some (true,
                { st with version_mismatch_nums := INT_MAX },
                [Effect.createClient,
                 Effect.onFatal RendererErrorType.RENDERER_VERSION_MISMATCH])
        else if client.serverProductOlder then
          some (true,
                { st with version_mismatch_nums := st.version_mismatch_nums + 1,
                          launcher := SetPendingCommand c st.launcher },
                [Effect.createClient, Effect.callIPC shutdownCommand])
        else
          some (true, st, [Effect.createClient, Effect.callIPC c])

/-- `RendererClient::ExecCommand` (renderer_client.cc lines 410-500): null
launcher or null factory return failure; an unconnectable launcher pends
the command and re-checks `CanConnect` before giving up with success; the
rest is `ExecCore`. -/
def ExecCommand (env : ExecEnv) (st : ClientState) (c : RendererCommand) :
    Option (Bool × ClientState × List Effect) :=
  if !st.hasLauncher then
    some (false, st, [])
  else if !st.hasFactory then
    some (false, st, [])
  else if !CanConnect env.now st.launcher then
    let st1 := { st with launcher := SetPendingCommand c st.launcher }
    if !CanConnect env.now st1.launcher then
      some (true, st1, [])
    else
      ExecCore env st1 c
  else
    ExecCore env st c

/-- `RendererClient::Activate` (renderer_client.cc lines 354-361): success
when already available, else `ExecCommand` of a default command with
`type = NOOP`. -/
def Activate (env : ExecEnv) (st : ClientState) :
    Option (Bool × ClientState × List Effect) :=
  if st.hasLauncher ∧ IsAvailable st.launcher then
    some (true, st, [])
  else
    ExecCommand env st { type := CommandType.NOOP, visible := false, has_output := false }

/-- `RendererClient::Shutdown` (renderer_client.cc lines 371-396): fail on a
null client; succeed when not connected; `force` force-terminates the
server; otherwise `ExecCommand` of a `SHUTDOWN` command. -/
def Shutdown (env : ExecEnv) (st : ClientState) (force : Bool) :
    Option (Bool × ClientState × List Effect) :=
  match ClientCreateIPCClient env st with
  | none => some (false, st, [])
  | some client =>
    if !client.connected then
      some (true, st, [Effect.createClient])
    else if force then
      if env.forceTerminateOk then
        some (true, st, [Effect.createClient, Effect.forceTerminateRenderer])
      else
        some (false, st, [Effect.createClient, Effect.forceTerminateRenderer])
    else
      match ExecCommand env st shutdownCommand with
      | none => none
      | some (r, st1, effs) => some (r, st1, Effect.createClient :: effs)

/-- `RendererClient::~RendererClient` (renderer_client.cc lines 334-342):
when available and the window is visible, send a final synthetic `UPDATE`
with `visible = false` through `ExecCommand`. -/
def ClientDestructor (env : ExecEnv) (st : ClientState) :
    Option (ClientState × List Effect) :=
  if !(st.hasLauncher ∧ IsAvailable st.launcher) ∨ !st.is_window_visible then
    some (st, [])
  else
    match ExecCommand env st
        { type := CommandType.UPDATE, visible := false, has_output := false } with
    | none => none
    | some (_, st1, effs) => some (st1, effs)

/-- The slot invariant: the pending-command slot is empty or holds an
UPDATE-typed command. -/
def SlotInv (s : LauncherState) : Prop :=
  ∀ c, s.pending_command = some c → c.type = CommandType.UPDATE

/-- The coalescing fold: each command in turn is handed to
`SetPendingCommand`, as happens once per `ExecCommand` while launching. -/
def pendAll (s : LauncherState) (cs : List RendererCommand) : LauncherState :=
  cs.foldl (fun t c => SetPendingCommand c t) s

/-- The pending UPDATE command of the C1 scenario. -/
def c1Command : RendererCommand :=
  { type := CommandType.UPDATE, visible := true, has_output := true }

/-- A fully healthy IPC client: connected, no error. -/
def healthyClient : IPCClientSpec :=
  { connected := true, lastIPCError := IPCError.IPC_NO_ERROR,
    serverProtocolVersion := 3, serverProductOlder := false }

/-- A client that is reachable but reports no connected server. -/
def disconnectedClient : IPCClientSpec :=
  { connected := false, lastIPCError := IPCError.IPC_NO_ERROR,
    serverProtocolVersion := 3, serverProductOlder := false }

/-- Launcher state mid-launch with a pending UPDATE and a configured
factory. -/
def c1State : LauncherState :=
  { renderer_status := RendererStatus.RENDERER_LAUNCHING, error_times := 2,
    last_launch_time := 0, pending_command := some c1Command, hasFactory := true }

/-- Launch-success environment: spawn succeeded, rendezvous event signaled,
the factory returns a valid (non-null) client. -/
def c1RunEnv : RunEnv :=
  { now := 100, listenerAvailable := true, spawnOk := true,
    waitResult := WaitResult.EVENT_SIGNALED, newClient := some healthyClient }

/-- Same scenario on the 10 s fallback path (no rendezvous listener). -/
def c1RunEnvNoListener : RunEnv :=
  { c1RunEnv with listenerAvailable := false }

/-- Client state in `RENDERER_UNKNOWN` with both interfaces configured. -/
def c10State : ClientState :=
  { is_window_visible := false, disable_renderer_path_check := false,
    version_mismatch_nums := 0, hasLauncher := true, hasFactory := true,
    launcher := { renderer_status := RendererStatus.RENDERER_UNKNOWN,
                  error_times := 0, last_launch_time := 0,
                  pending_command := none, hasFactory := true } }

/-- Environment in which the factory's `NewClient` returns null. -/
def c10Env : ExecEnv :=
  { now := 0, newClient := none, ipcProtocolVersion := 3, forceTerminateOk := true }

/-- The three failing rendezvous outcomes of a launch (the only outcomes
possible without an intervening `RENDERER_READY`). -/
inductive FailKind
  | timeoutFail
  | terminatedFail
  | otherFail
deriving DecidableEq, Repr

/-- The `WaitEventOrProcess` outcome corresponding to each failure. -/
def failWait : FailKind → WaitResult
  | FailKind.timeoutFail => WaitResult.TIMEOUT
  | FailKind.terminatedFail => WaitResult.PROCESS_SIGNALED
  | FailKind.otherFail => WaitResult.OTHER

/-- A worker environment in which the spawn succeeds, the listener is
available and the rendezvous fails in the given way. -/
def failRunEnv (now : Nat) (k : FailKind) : RunEnv :=
  { now := now, listenerAvailable := true, spawnOk := true,
    waitResult := failWait k, newClient := none }

/-- The status `Run` assigns for each failing outcome. -/
def failStatus : FailKind → RendererStatus
  | FailKind.timeoutFail => RendererStatus.RENDERER_TIMEOUT
  | FailKind.terminatedFail => RendererStatus.RENDERER_TERMINATED
  | FailKind.otherFail => RendererStatus.RENDERER_FATAL

/-- The effects `Run` emits for each failing outcome. -/
def failEffects : FailKind → List Effect
  | FailKind.otherFail => [Effect.onFatal RendererErrorType.RENDERER_FATAL]
  | _ => []

/-- One externally visible event while the supervisor sits in a throttled
state: either an `ExecCommand` whose `CanConnect` gate grants a relaunch
(which then fails in one of the three non-READY ways), or an `ExecCommand`
that is denied and merely pends its command. -/
inductive ThrottleEvent
  | relaunch (now : Nat) (k : FailKind)
  | submit (now : Nat) (c : RendererCommand)
deriving DecidableEq, Repr

/-- Small-step relation: a granted relaunch runs `StartRenderer` (status
`RENDERER_LAUNCHING`) followed by the failing worker body `Run`; a denied
call runs `SetPendingCommand` only, exactly as `ExecCommand` does. -/
inductive ThrottleStep : LauncherState → ThrottleEvent → LauncherState → Prop
  | relaunch {s s1 : LauncherState} {effs : List Effect} (now : Nat) (k : FailKind)
      (hst : s.renderer_status = RendererStatus.RENDERER_TIMEOUT ∨
             s.renderer_status = RendererStatus.RENDERER_TERMINATED)
      (hcc : CanConnect now s = true)
      (hrun : Run (failRunEnv now k)
          { s with renderer_status := RendererStatus.RENDERER_LAUNCHING } = some (s1, effs)) :
      ThrottleStep s (ThrottleEvent.relaunch now k) s1
  | submit {s : LauncherState} (now : Nat) (c : RendererCommand)
      (hcc : CanConnect now s = false) :
      ThrottleStep s (ThrottleEvent.submit now c) (SetPendingCommand c s)

/-- Reflexive-transitive chaining of throttle steps. -/
inductive ThrottleTrace : LauncherState → List ThrottleEvent → LauncherState → Prop
  | nil (s : LauncherState) : ThrottleTrace s [] s
  | cons {s s1 s2 : LauncherState} {e : ThrottleEvent} {evs : List ThrottleEvent} :
      ThrottleStep s e s1 → ThrottleTrace s1 evs s2 → ThrottleTrace s (e :: evs) s2

/-- Number of granted launches in an event sequence. -/
def countRelaunch : List ThrottleEvent → Nat
  | [] => 0
  | ThrottleEvent.relaunch _ _ :: tl => countRelaunch tl + 1
  | ThrottleEvent.submit _ _ :: tl => countRelaunch tl

/-- A throttled state reached after one failed launch. -/
def c2Start : LauncherState :=
  { renderer_status := RendererStatus.RENDERER_TIMEOUT, error_times := 1,
    last_launch_time := 0, pending_command := none, hasFactory := false }

/-- The state after one more granted-and-timed-out relaunch at time 40. -/
def c2AfterRun : LauncherState :=
  { renderer_status := RendererStatus.RENDERER_TIMEOUT, error_times := 2,
    last_launch_time := 40, pending_command := none, hasFactory := false }

end Mozc.Renderer

namespace Mozc.UserPos

/-! ## Part 1 — lemmas and claim theorems -/

lemma and_two_pow_ne_zero_iff (x i : Nat) : (x &&& 2 ^ i ≠ 0) ↔ x.testBit i = true := by
  rw [Nat.and_two_pow]
  cases h : x.testBit i
  · simp
  · simp [pow_ne_zero i (two_ne_zero)]

lemma has_attribute_two_pow (x i : Nat) :
    Token.has_attribute x (2 ^ i) = x.testBit i := by
  unfold Token.has_attribute
  rw [Nat.and_two_pow]
  cases h : x.testBit i
  · simp
  · simp [bne_iff_ne, pow_ne_zero i (two_ne_zero)]

lemma testBit_65535 (j : Nat) (hj : j < 16) : Nat.testBit 65535 j = true := by
  have h : (65535 : Nat) = 2 ^ 16 - 1 := by norm_num
  rw [h, Nat.testBit_two_pow_sub_one]
  simpa using hj

lemma add_attribute_testBit (t i j : Nat) :
    (Token.add_attribute t (2 ^ i)).testBit j =
      (t.testBit j || (decide (i = j))) := by
  unfold Token.add_attribute
  rw [Nat.testBit_lor]
  by_cases h : i = j
  · subst h
    simp [Nat.testBit_two_pow_self]
  · simp [Nat.testBit_two_pow_of_ne h, h]

lemma remove_attribute_testBit (t i j : Nat) (hj : j < 16) :
    (Token.remove_attribute t (2 ^ i)).testBit j =
      (t.testBit j && !(decide (i = j))) := by
  unfold Token.remove_attribute
  rw [Nat.testBit_land, Nat.testBit_xor, testBit_65535 j hj]
  by_cases h : i = j
  · subst h
    simp [Nat.testBit_two_pow_self]
  · simp [Nat.testBit_two_pow_of_ne h, h]

lemma attribute_flag_form (a : Nat) (h : Token.IsAttributeFlag a) :
    ∃ i, i < 16 ∧ a = 2 ^ i := by
  rcases h with h | h | h | h
  · exact ⟨0, by norm_num, by simpa [Token.SHORTCUT] using h⟩
  · exact ⟨1, by norm_num, by simpa [Token.ISOLATED_WORD] using h⟩
  · exact ⟨2, by norm_num, by simpa [Token.SUGGESTION_ONLY] using h⟩
  · exact ⟨3, by norm_num, by simpa [Token.NON_JA_LOCALE] using h⟩

/-- Claim C7 counterexample: dereferencing a `UserPos::iterator` does NOT
yield the unpacked record with all four fields.  `operator*` returns only
`pos_index()`: at two valid positions whose stored records differ (their
conjugation IDs are 3 and 9), dereference yields the same single value 5. -/
theorem claim_C7_counterexample :
    Iterator.deref twoRecordBytes ⟨0⟩ = 5 ∧
    Iterator.deref twoRecordBytes ⟨8⟩ = 5 ∧
    (tokenRecord twoRecordBytes 0).conjugation_id = 3 ∧
    (tokenRecord twoRecordBytes 1).conjugation_id = 9 := by
  decide

/-- Claim C7 (amended): at every valid iterator position, dereferencing
yields the `pos_index` field of the 8-byte record at that position (a single
`uint16_t`), and the full unpacked record is exposed through the four
accessors `pos_index`, `value_suffix_index`, `key_suffix_index`,
`conjugation_id`, which decode the little-endian fields at byte offsets
0, 2, 4 and 6 of the record. -/
theorem claim_C7_amended (data : List Nat) (x : Iterator) (i : Nat)
    (hx : x.ptr = ((8 * i : Nat) : Int)) (hi : i < data.length / 8) :
    Iterator.deref data x = (tokenRecord data i).pos_index ∧
    Iterator.pos_index data x = (tokenRecord data i).pos_index ∧
    Iterator.value_suffix_index data x = (tokenRecord data i).value_suffix_index ∧
    Iterator.key_suffix_index data x = (tokenRecord data i).key_suffix_index ∧
    Iterator.conjugation_id data x = (tokenRecord data i).conjugation_id := by
  have h : x.ptr.toNat = 8 * i := by omega
  unfold Iterator.deref Iterator.pos_index Iterator.value_suffix_index
  unfold Iterator.key_suffix_index Iterator.conjugation_id tokenRecord
  rw [h]
  exact ⟨rfl, rfl, rfl, rfl, rfl⟩

/-- Claim C7 witness: the amended claim evaluated at record index 1 of the
concrete two-record array. -/
theorem claim_C7_witness :
    Iterator.deref twoRecordBytes ⟨8⟩ = (tokenRecord twoRecordBytes 1).pos_index ∧
    Iterator.pos_index twoRecordBytes ⟨8⟩ = (tokenRecord twoRecordBytes 1).pos_index ∧
    Iterator.value_suffix_index twoRecordBytes ⟨8⟩ = (tokenRecord twoRecordBytes 1).value_suffix_index ∧
    Iterator.key_suffix_index twoRecordBytes ⟨8⟩ = (tokenRecord twoRecordBytes 1).key_suffix_index ∧
    Iterator.conjugation_id twoRecordBytes ⟨8⟩ = (tokenRecord twoRecordBytes 1).conjugation_id :=
  claim_C7_amended twoRecordBytes ⟨8⟩ 1 (by decide) (by decide)

/-- Claim C8 counterexample: `(x + n) - x = n` fails for negative `n`.
`kTokenByteLength` is a `size_t`, so `operator-`'s division is unsigned:
at `n = -1` the byte difference `-8` wraps to `2^64 - 8` before dividing,
and the program returns `2^61 - 1`, not `-1`. -/
theorem claim_C8_counterexample :
    Iterator.diff (Iterator.add ⟨0⟩ (-1)) ⟨0⟩ = 2 ^ 61 - 1 ∧
    (Iterator.add (⟨0⟩ : Iterator) (-1)).ptr = -8 := by
  refine ⟨by decide, rfl⟩

/-- Claim C8 (amended): iterator arithmetic is in units of 8-byte records,
with the caveat that `operator-`'s division is unsigned because
`kTokenByteLength` is a `size_t`: `(x + n) - x = n` holds for
`0 ≤ n < 2^61`, while for `-(2^61) ≤ n < 0` the wrapped quotient is
`2^61 + n`; advancing by `n` still moves the underlying pointer by exactly
`n * 8` bytes for every integer `n`; increment followed by decrement is
the identity (both orders); and `end() - begin()` is exactly `size / 8`
records for any buffer size below `2^64`. -/
theorem claim_C8_amended :
    (∀ (x : Iterator) (n : Int), 0 ≤ n → n < 2 ^ 61 →
      Iterator.diff (Iterator.add x n) x = n) ∧
    (∀ (x : Iterator) (n : Int), n < 0 → -(2 ^ 61) ≤ n →
      Iterator.diff (Iterator.add x n) x = 2 ^ 61 + n) ∧
    (∀ (x : Iterator) (n : Int),
      (Iterator.add x n).ptr = x.ptr + n * (kTokenByteLength : Int)) ∧
    (∀ x : Iterator, Iterator.dec (Iterator.inc x) = x ∧ Iterator.inc (Iterator.dec x) = x) ∧
    (∀ (base : Int) (size : Nat), size < 2 ^ 64 →
      Iterator.diff (endIt base size) (beginIt base) = ((size / kTokenByteLength : Nat) : Int)) := by
  refine ⟨?_, ?_, fun x n => rfl, ?_, ?_⟩
  · intro x n h0 h1
    simp only [Iterator.diff, Iterator.add, kTokenByteLength]
    norm_num
    omega
  · intro x n h0 h1
    simp only [Iterator.diff, Iterator.add, kTokenByteLength]
    norm_num
    omega
  · intro x
    constructor
    · cases x
      simp [Iterator.inc, Iterator.dec]
    · cases x
      simp [Iterator.inc, Iterator.dec]
  · intro base size h
    simp only [Iterator.diff, endIt, beginIt, kTokenByteLength]
    norm_num
    omega

/-- Claim C8 witness: record-unit arithmetic evaluated concretely — a
forward step of 3 records, a backward step of 2 records (showing the
unsigned wrap `2^61 - 2`), and `end() - begin()` over a 16-byte buffer. -/
theorem claim_C8_witness :
    Iterator.diff (Iterator.add ⟨0⟩ 3) ⟨0⟩ = 3 ∧
    Iterator.diff (Iterator.add ⟨0⟩ (-2)) ⟨0⟩ = 2 ^ 61 + (-2) ∧
    Iterator.diff (endIt 0 16) (beginIt 0) = ((16 / kTokenByteLength : Nat) : Int) :=
  ⟨claim_C8_amended.1 ⟨0⟩ 3 (by norm_num) (by norm_num),
   claim_C8_amended.2.1 ⟨0⟩ (-2) (by norm_num) (by norm_num),
   claim_C8_amended.2.2.2.2 0 16 (by norm_num)⟩

/-- Claim C9: the `Token::Attribute` operations behave as bitwise
or / and / and-not over the flag values `SHORTCUT = 1`,
`ISOLATED_WORD = 2`, `SUGGESTION_ONLY = 4`, `NON_JA_LOCALE = 8`: after
`add_attribute a` the flag `a` is set; after `remove_attribute a` it is
clear; and neither operation changes whether a distinct flag `b` is set. -/
theorem claim_C9_attribute_bitset (t a b : Nat)
    (ha : Token.IsAttributeFlag a) (hb : Token.IsAttributeFlag b) (hab : a ≠ b) :
    Token.has_attribute (Token.add_attribute t a) a = true ∧
    Token.has_attribute (Token.remove_attribute t a) a = false ∧
    Token.has_attribute (Token.add_attribute t a) b = Token.has_attribute t b ∧
    Token.has_attribute (Token.remove_attribute t a) b = Token.has_attribute t b := by
  obtain ⟨i, hi16, rfl⟩ := attribute_flag_form a ha
  obtain ⟨j, hj16, rfl⟩ := attribute_flag_form b hb
  have hij : i ≠ j := fun h => hab (by rw [h])
  refine ⟨?_, ?_, ?_, ?_⟩
  · rw [has_attribute_two_pow, add_attribute_testBit]
    simp
  · rw [has_attribute_two_pow, remove_attribute_testBit t i i hi16]
    simp
  · rw [has_attribute_two_pow, add_attribute_testBit, has_attribute_two_pow]
    simp [hij]
  · rw [has_attribute_two_pow, remove_attribute_testBit t i j hj16, has_attribute_two_pow]
    simp [hij]

/-- Claim C9 witness: the bitset claim evaluated at `attributes = 5`,
`a = SHORTCUT`, `b = ISOLATED_WORD`. -/
theorem claim_C9_witness :
    Token.has_attribute (Token.add_attribute 5 Token.SHORTCUT) Token.SHORTCUT = true ∧
    Token.has_attribute (Token.remove_attribute 5 Token.SHORTCUT) Token.SHORTCUT = false ∧
    Token.has_attribute (Token.add_attribute 5 Token.SHORTCUT) Token.ISOLATED_WORD =
      Token.has_attribute 5 Token.ISOLATED_WORD ∧
    Token.has_attribute (Token.remove_attribute 5 Token.SHORTCUT) Token.ISOLATED_WORD =
      Token.has_attribute 5 Token.ISOLATED_WORD :=
  claim_C9_attribute_bitset 5 Token.SHORTCUT Token.ISOLATED_WORD
    (Or.inl rfl) (Or.inr (Or.inl rfl)) (by decide)

end Mozc.UserPos

namespace Mozc.Renderer

/-! ## Part 2 — lemmas and claim theorems -/

lemma setPending_status (c : RendererCommand) (s : LauncherState) :
    (SetPendingCommand c s).renderer_status = s.renderer_status := by
  unfold SetPendingCommand
  split <;> rfl

lemma setPending_error_times (c : RendererCommand) (s : LauncherState) :
    (SetPendingCommand c s).error_times = s.error_times := by
  unfold SetPendingCommand
  split <;> rfl

lemma setPending_last_launch (c : RendererCommand) (s : LauncherState) :
    (SetPendingCommand c s).last_launch_time = s.last_launch_time := by
  unfold SetPendingCommand
  split <;> rfl

lemma canConnect_setPending (now : Nat) (c : RendererCommand) (s : LauncherState) :
    CanConnect now (SetPendingCommand c s) = CanConnect now s := by
  unfold CanConnect
  rw [setPending_status, setPending_error_times, setPending_last_launch]

lemma flush_fields {nc : Option IPCClientSpec} {s s1 : LauncherState} {effs : List Effect}
    (h : FlushPendingCommand nc s = some (s1, effs)) :
    s1 = { s with pending_command := none,
                  renderer_status := RendererStatus.RENDERER_READY,
                  error_times := 0 } := by
  unfold FlushPendingCommand LauncherCreateIPCClient at h
  split at h
  · split at h
    · exact absurd h (by simp)
    · simp only [Option.some.injEq, Prod.mk.injEq] at h
      exact h.1.symm
  · simp only [Option.some.injEq, Prod.mk.injEq] at h
    exact h.1.symm

lemma triple_state {α β γ : Type} {a : α} {b st1 : β} {cl effs : γ} {r : α}
    (h : (some (a, b, cl) : Option (α × β × γ)) = some (r, st1, effs)) :
    st1 = b := by
  simp only [Option.some.injEq, Prod.mk.injEq] at h
  exact h.2.1.symm

lemma pair_state {α β : Type} {b s1 : α} {cl effs : β}
    (h : (some (b, cl) : Option (α × β)) = some (s1, effs)) :
    s1 = b := by
  simp only [Option.some.injEq, Prod.mk.injEq] at h
  exact h.1.symm

/-! ### Claim C1 -/

/-- Claim C1 (code bug): on the launch-success path with a pending UPDATE
command, a configured factory and a valid client, `FlushPendingCommand`
performs ZERO IPC sends — the source guards the send with `if (!client)`
(renderer_client.cc line 280), so the command is silently dropped: the
slot is cleared, the status becomes `RENDERER_READY` and the error streak
resets, but the command is never delivered.  The claim (and §4.2 of the
spec, which §9 confirms as the intent) requires exactly one send.  Both
the rendezvous-event path and the no-listener fallback path are
evaluated. -/
theorem claim_C1_flush_never_sends :
    Run c1RunEnv c1State =
      some ({ renderer_status := RendererStatus.RENDERER_READY, error_times := 0,
              last_launch_time := 100, pending_command := none, hasFactory := true },
            [Effect.createClient]) ∧
    Run c1RunEnvNoListener c1State =
      some ({ renderer_status := RendererStatus.RENDERER_READY, error_times := 0,
              last_launch_time := 100, pending_command := none, hasFactory := true },
            [Effect.createClient]) ∧
    countSends [Effect.createClient] = 0 := by
  refine ⟨rfl, rfl, rfl⟩

/-! ### Claim C10 -/

/-- Claim C10 (code bug): `ExecCommand` DOES dereference a null IPC client.
After passing the connectability and version-mismatch gates, the code runs
`client->GetLastIPCError()` (renderer_client.cc line 444) with no null
check on the `CreateIPCClient()` result, although `NewClient` may return
null; the embedding reaches the undefined-behavior marker `none`.  By
contrast `Shutdown` on the same state checks the pointer and returns an
ordinary failure, showing the missing check is a slip. -/
theorem claim_C10_null_client_deref :
    ExecCommand c10Env c10State c1Command = none ∧
    Shutdown c10Env c10State true = some (false, c10State, []) := by
  refine ⟨rfl, rfl⟩

/-! ### Claim C4 -/

lemma pendAll_lastWins (cs : List RendererCommand) :
    ∀ (s : LauncherState), cs ≠ [] → (∀ c ∈ cs, c.type = CommandType.UPDATE) →
      (pendAll s cs).pending_command = cs.getLast? := by
  induction cs with
  | nil => intro s h _; exact absurd rfl h
  | cons c tl ih =>
    intro s _ hall
    cases tl with
    | nil =>
        have hc : c.type = CommandType.UPDATE := hall c (List.mem_cons_self c [])
        simp [pendAll, SetPendingCommand, hc]
    | cons c2 tl2 =>
        have hstep : pendAll s (c :: c2 :: tl2) = pendAll (SetPendingCommand c s) (c2 :: tl2) := rfl
        rw [hstep, List.getLast?_cons_cons]
        exact ih (SetPendingCommand c s) (by simp)
          (fun d hd => hall d (List.mem_cons_of_mem c hd))

/-- Claim C4: pending UPDATE commands coalesce, last-write-wins.  While the
launcher is `RENDERER_LAUNCHING` (not connectable), every `ExecCommand`
simply hands its command to `SetPendingCommand` and returns success with no
effects; and folding `SetPendingCommand` over any non-empty sequence of
UPDATE commands leaves exactly the last one in the single slot. -/
theorem claim_C4_coalesce :
    (∀ (env : ExecEnv) (st : ClientState) (c : RendererCommand),
      st.hasLauncher = true → st.hasFactory = true →
      st.launcher.renderer_status = RendererStatus.RENDERER_LAUNCHING →
      ExecCommand env st c =
        some (true, { st with launcher := SetPendingCommand c st.launcher }, [])) ∧
    (∀ (s : LauncherState) (cs : List RendererCommand),
      cs ≠ [] → (∀ c ∈ cs, c.type = CommandType.UPDATE) →
      (pendAll s cs).pending_command = cs.getLast?) := by
  constructor
  · intro env st c hL hF hst
    unfold ExecCommand
    rw [hL, hF]
    have hcc : CanConnect env.now st.launcher = false := by
      unfold CanConnect
      rw [hst]
    have hcc2 : CanConnect env.now (SetPendingCommand c st.launcher) = false := by
      rw [canConnect_setPending, hcc]
    simp [hcc, hcc2]
  · intro s cs h hall
    exact pendAll_lastWins cs s h hall

/-- Claim C4 witness: two UPDATE commands pended from `RENDERER_LAUNCHING`;
the slot holds the second. -/
theorem claim_C4_witness :
    ExecCommand c10Env
        { c10State with
          launcher := { c10State.launcher with
                        renderer_status := RendererStatus.RENDERER_LAUNCHING } }
        c1Command =
      some (true,
        { c10State with
          launcher := SetPendingCommand c1Command
            { c10State.launcher with
              renderer_status := RendererStatus.RENDERER_LAUNCHING } }, []) ∧
    (pendAll { c10State.launcher with
               renderer_status := RendererStatus.RENDERER_LAUNCHING }
        [{ type := CommandType.UPDATE, visible := false, has_output := false }, c1Command]
      ).pending_command =
      ([{ type := CommandType.UPDATE, visible := false, has_output := false }, c1Command].getLast?) :=
  ⟨claim_C4_coalesce.1 c10Env _ c1Command rfl rfl rfl,
   claim_C4_coalesce.2 _ _ (by simp) (by decide)⟩

/-! ### Claim C6 -/

/-- Claim C6: an `UPDATE` with `visible = false` and `has_output = false`
issued while the launcher is `RENDERER_UNKNOWN` and the client reports not
connected is discarded: success is returned, only the client-creation
effect occurs (in particular no `StartRenderer`), the pending slot stays
empty and the status stays `RENDERER_UNKNOWN`; only `is_window_visible_`
is updated to false. -/
theorem claim_C6_hide_drop (env : ExecEnv) (st : ClientState) (client : IPCClientSpec)
    (hL : st.hasLauncher = true) (hF : st.hasFactory = true)
    (hst : st.launcher.renderer_status = RendererStatus.RENDERER_UNKNOWN)
    (hpend : st.launcher.pending_command = none)
    (hvm : st.version_mismatch_nums < kMaxVersionMismatchNums)
    (hnc : env.newClient = some client)
    (herr : client.lastIPCError ≠ IPCError.IPC_TIMEOUT_ERROR)
    (hconn : client.connected = false) :
    ExecCommand env st { type := CommandType.UPDATE, visible := false, has_output := false } =
      some (true, { st with is_window_visible := false }, [Effect.createClient]) ∧
    ({ st with is_window_visible := false } : ClientState).launcher.pending_command = none ∧
    ({ st with is_window_visible := false } : ClientState).launcher.renderer_status =
      RendererStatus.RENDERER_UNKNOWN := by
  refine ⟨?_, hpend, hst⟩
  have hcc : CanConnect env.now st.launcher = true := by
    unfold CanConnect
    rw [hst]
  unfold ExecCommand ExecCore ClientCreateIPCClient
  rw [hL, hF, hcc, hnc]
  simp [Nat.not_le.mpr hvm, herr, hconn]

/-- Claim C6 witness: the hide-drop claim evaluated on the concrete cold
state. -/
theorem claim_C6_witness :
    ExecCommand { c10Env with newClient := some disconnectedClient } c10State
        { type := CommandType.UPDATE, visible := false, has_output := false } =
      some (true, { c10State with is_window_visible := false }, [Effect.createClient]) ∧
    ({ c10State with is_window_visible := false } : ClientState).launcher.pending_command = none ∧
    ({ c10State with is_window_visible := false } : ClientState).launcher.renderer_status =
      RendererStatus.RENDERER_UNKNOWN :=
  claim_C6_hide_drop _ c10State disconnectedClient rfl rfl rfl rfl
    (by decide) rfl (by decide) rfl

/-! ### Claim C5 -/

/-- Claim C5: (a) a call that reaches the protocol-version comparison with
the client protocol version strictly greater than the server's performs
exactly one force-terminate, exactly one increment of
`version_mismatch_nums_`, hands the command to `SetPendingCommand`, and
returns success; (b) once `version_mismatch_nums_` has reached 3, every
`ExecCommand` returns success with an empty effect list — no IPC client is
created and no IPC is performed. -/
theorem claim_C5_version_mismatch :
    (∀ (env : ExecEnv) (st : ClientState) (c : RendererCommand) (client : IPCClientSpec),
      st.hasLauncher = true → st.hasFactory = true →
      CanConnect env.now st.launcher = true →
      st.version_mismatch_nums < kMaxVersionMismatchNums →
      env.newClient = some client →
      client.lastIPCError ≠ IPCError.IPC_TIMEOUT_ERROR →
      client.connected = true →
      client.serverProtocolVersion < env.ipcProtocolVersion →
      ExecCommand env st c =
        some (true,
          { st with is_window_visible := c.visible,
                    version_mismatch_nums := st.version_mismatch_nums + 1,
                    launcher := SetPendingCommand c st.launcher },
          [Effect.createClient, Effect.forceTerminateRenderer])) ∧
    (∀ (env : ExecEnv) (st : ClientState) (c : RendererCommand),
      st.hasLauncher = true → st.hasFactory = true →
      st.version_mismatch_nums ≥ kMaxVersionMismatchNums →
      (ExecCommand env st c = some (true, st, []) ∨
       ExecCommand env st c =
         some (true, { st with launcher := SetPendingCommand c st.launcher }, []))) := by
  constructor
  · intro env st c client hL hF hcc hvm hnc herr hconn hproto
    unfold ExecCommand ExecCore ClientCreateIPCClient
    rw [hL, hF, hcc, hnc]
    simp [Nat.not_le.mpr hvm, herr, hconn, hproto, Nat.not_lt.mpr (Nat.le_of_lt hproto)]
  · intro env st c hL hF hvm
    by_cases hcc : CanConnect env.now st.launcher = true
    · left
      unfold ExecCommand ExecCore
      rw [hL, hF, hcc]
      simp [hvm]
    · right
      have hcc1 : CanConnect env.now st.launcher = false := by
        cases h : CanConnect env.now st.launcher
        · rfl
        · exact absurd h hcc
      have hcc2 : CanConnect env.now (SetPendingCommand c st.launcher) = false := by
        rw [canConnect_setPending, hcc1]
      unfold ExecCommand
      rw [hL, hF, hcc1]
      simp [hcc2]

/-- Claim C5 witness: both parts evaluated concretely — (a) a connected
client with server protocol version 2 against client protocol version 3,
(b) a state with `version_mismatch_nums = 3`. -/
theorem claim_C5_witness :
    ExecCommand
        { now := 0, newClient := some { connected := true,
                                        lastIPCError := IPCError.IPC_NO_ERROR,
                                        serverProtocolVersion := 2,
                                        serverProductOlder := false },
          ipcProtocolVersion := 3, forceTerminateOk := true }
        c10State c1Command =
      some (true,
        { c10State with is_window_visible := true,
                        version_mismatch_nums := 1,
                        launcher := SetPendingCommand c1Command c10State.launcher },
        [Effect.createClient, Effect.forceTerminateRenderer]) ∧
    (ExecCommand c10Env { c10State with version_mismatch_nums := 3 } c1Command =
       some (true, { c10State with version_mismatch_nums := 3 }, []) ∨
     ExecCommand c10Env { c10State with version_mismatch_nums := 3 } c1Command =
       some (true,
         { { c10State with version_mismatch_nums := 3 } with
           launcher := SetPendingCommand c1Command c10State.launcher }, [])) :=
  ⟨claim_C5_version_mismatch.1 _ c10State c1Command _ rfl rfl rfl
      (by decide) rfl (by decide) rfl (by decide),
   claim_C5_version_mismatch.2 c10Env _ c1Command rfl rfl (by decide)⟩

/-! ### Claim C3 -/

lemma slotInv_of_pending_eq {s t : LauncherState}
    (h : t.pending_command = s.pending_command) (hs : SlotInv s) : SlotInv t :=
  fun c hc => hs c (h ▸ hc)

lemma slotInv_of_none {s : LauncherState} (h : s.pending_command = none) : SlotInv s :=
  fun d hd => by rw [h] at hd; exact absurd hd (by simp)

lemma setPending_slotInv (c : RendererCommand) {s : LauncherState}
    (hs : SlotInv s) : SlotInv (SetPendingCommand c s) := by
  unfold SetPendingCommand
  split
  · intro d hd
    simp only [Option.some.injEq] at hd
    subst hd
    assumption
  · exact hs

lemma setPending_pending_idem (c : RendererCommand) (s : LauncherState) :
    (SetPendingCommand c (SetPendingCommand c s)).pending_command =
      (SetPendingCommand c s).pending_command := by
  unfold SetPendingCommand
  by_cases h : c.type = CommandType.UPDATE <;> simp [h]

lemma execCore_slot {env : ExecEnv} {st : ClientState} {c : RendererCommand}
    {r : Bool} {st1 : ClientState} {effs : List Effect}
    (h : ExecCore env st c = some (r, st1, effs)) :
    st1.launcher.pending_command = st.launcher.pending_command ∨
    st1.launcher.pending_command = (SetPendingCommand c st.launcher).pending_command := by
  unfold ExecCore at h
  by_cases hvm : st.version_mismatch_nums ≥ kMaxVersionMismatchNums
  · rw [if_pos hvm] at h
    rw [triple_state h]
    left; rfl
  · rw [if_neg hvm] at h
    split at h
    · exact absurd h (by simp)
    · rename_i client hnc
      by_cases herr : client.lastIPCError = IPCError.IPC_TIMEOUT_ERROR
      · rw [if_pos herr] at h
        rw [triple_state h]
        left; rfl
      · rw [if_neg herr] at h
        dsimp only at h
        by_cases hconn : client.connected = true
        · have hc1 : ¬((!client.connected) = true) := by simp [hconn]
          rw [if_neg hc1] at h
          by_cases hgt : env.ipcProtocolVersion > client.serverProtocolVersion
          · rw [if_pos hgt] at h
            rw [triple_state h]
            right; rfl
          · rw [if_neg hgt] at h
            by_cases hlt : env.ipcProtocolVersion < client.serverProtocolVersion
            · rw [if_pos hlt] at h
              rw [triple_state h]
              left; rfl
            · rw [if_neg hlt] at h
              by_cases hprod : client.serverProductOlder = true
              · rw [if_pos hprod] at h
                rw [triple_state h]
                right; rfl
              · rw [if_neg hprod] at h
                rw [triple_state h]
                left; rfl
        · have hc1 : ((!client.connected) = true) := by
            cases hb : client.connected
            · rfl
            · exact absurd hb hconn
          rw [if_pos hc1] at h
          by_cases hdrop : c.type = CommandType.UPDATE ∧ ((!c.visible) = true ∨ (!c.has_output) = true)
          · rw [if_pos hdrop] at h
            rw [triple_state h]
            left; rfl
          · rw [if_neg hdrop] at h
            rw [triple_state h]
            right; rfl

lemma execCommand_slot {env : ExecEnv} {st : ClientState} {c : RendererCommand}
    {r : Bool} {st1 : ClientState} {effs : List Effect}
    (h : ExecCommand env st c = some (r, st1, effs)) :
    st1.launcher.pending_command = st.launcher.pending_command ∨
    st1.launcher.pending_command = (SetPendingCommand c st.launcher).pending_command := by
  unfold ExecCommand at h
  by_cases hL : (!st.hasLauncher) = true
  · rw [if_pos hL] at h
    rw [triple_state h]
    left; rfl
  · rw [if_neg hL] at h
    by_cases hF : (!st.hasFactory) = true
    · rw [if_pos hF] at h
      rw [triple_state h]
      left; rfl
    · rw [if_neg hF] at h
      by_cases hcc : (!CanConnect env.now st.launcher) = true
      · rw [if_pos hcc] at h
        dsimp only at h
        by_cases hcc2 : (!CanConnect env.now (SetPendingCommand c st.launcher)) = true
        · rw [if_pos hcc2] at h
          rw [triple_state h]
          right; rfl
        · rw [if_neg hcc2] at h
          rcases execCore_slot h with h1 | h1
          · right
            rw [h1]
          · right
            rw [h1]
            exact setPending_pending_idem c st.launcher
      · rw [if_neg hcc] at h
        exact execCore_slot h

lemma execCommand_slotInv {env : ExecEnv} {st : ClientState} {c : RendererCommand}
    {r : Bool} {st1 : ClientState} {effs : List Effect}
    (h : ExecCommand env st c = some (r, st1, effs)) (hs : SlotInv st.launcher) :
    SlotInv st1.launcher := by
  rcases execCommand_slot h with h1 | h1
  · exact slotInv_of_pending_eq h1 hs
  · exact slotInv_of_pending_eq h1 (setPending_slotInv c hs)

lemma run_slot {env : RunEnv} {s s1 : LauncherState} {effs : List Effect}
    (h : Run env s = some (s1, effs)) :
    s1.pending_command = s.pending_command ∨ s1.pending_command = none := by
  unfold Run at h
  dsimp only at h
  split at h
  · rw [pair_state h]
    left; rfl
  · split at h
    · split at h
      · rw [pair_state h]
        left; rfl
      · split at h
        · exact absurd h (by simp)
        · rename_i s2 effs2 hflush
          rw [pair_state h]
          right
          rw [flush_fields hflush]
      · rw [pair_state h]
        left; rfl
      · rw [pair_state h]
        left; rfl
    · split at h
      · exact absurd h (by simp)
      · rename_i s2 effs2 hflush
        rw [pair_state h]
        right
        rw [flush_fields hflush]

/-- Claim C3: the pending-command slot only ever holds UPDATE-typed
commands.  `SetPendingCommand` with a NOOP or SHUTDOWN command is a no-op
(the state is unchanged), `SetPendingCommand` preserves the invariant for
every command, and so do `StartRenderer`, `FlushPendingCommand` (which
clears the slot), the launch worker `Run`, `ExecCommand`, `Activate`,
`Shutdown` and the destructor — every operation of the supervisor. -/
theorem claim_C3_slot_invariant :
    (∀ (c : RendererCommand) (s : LauncherState),
      c.type = CommandType.NOOP ∨ c.type = CommandType.SHUTDOWN →
      SetPendingCommand c s = s) ∧
    (∀ (c : RendererCommand) (s : LauncherState),
      SlotInv s → SlotInv (SetPendingCommand c s)) ∧
    (∀ (b : Bool) (s : LauncherState), SlotInv s → SlotInv (StartRenderer b s).1) ∧
    (∀ (nc : Option IPCClientSpec) (s s1 : LauncherState) (effs : List Effect),
      FlushPendingCommand nc s = some (s1, effs) → SlotInv s1) ∧
    (∀ (env : RunEnv) (s s1 : LauncherState) (effs : List Effect),
      Run env s = some (s1, effs) → SlotInv s → SlotInv s1) ∧
    (∀ (env : ExecEnv) (st : ClientState) (c : RendererCommand) (r : Bool)
      (st1 : ClientState) (effs : List Effect),
      ExecCommand env st c = some (r, st1, effs) → SlotInv st.launcher → SlotInv st1.launcher) ∧
    (∀ (env : ExecEnv) (st : ClientState) (r : Bool) (st1 : ClientState) (effs : List Effect),
      Activate env st = some (r, st1, effs) → SlotInv st.launcher → SlotInv st1.launcher) ∧
    (∀ (env : ExecEnv) (st : ClientState) (f r : Bool) (st1 : ClientState) (effs : List Effect),
      Shutdown env st f = some (r, st1, effs) → SlotInv st.launcher → SlotInv st1.launcher) ∧
    (∀ (env : ExecEnv) (st st1 : ClientState) (effs : List Effect),
      ClientDestructor env st = some (st1, effs) → SlotInv st.launcher → SlotInv st1.launcher) := by
  refine ⟨?_, ?_, ?_, ?_, ?_, ?_, ?_, ?_, ?_⟩
  · intro c s hcs
    unfold SetPendingCommand
    rcases hcs with h | h <;> simp [h]
  · intro c s hs
    exact setPending_slotInv c hs
  · intro b s hs
    exact fun d hd => hs d hd
  · intro nc s s1 effs h
    exact slotInv_of_none (by rw [flush_fields h])
  · intro env s s1 effs h hs
    rcases run_slot h with h1 | h1
    · exact slotInv_of_pending_eq h1 hs
    · exact slotInv_of_none h1
  · intro env st c r st1 effs h hs
    exact execCommand_slotInv h hs
  · intro env st r st1 effs h hs
    unfold Activate at h
    split at h
    · rw [triple_state h]
      exact hs
    · exact execCommand_slotInv h hs
  · intro env st f r st1 effs h hs
    unfold Shutdown at h
    split at h
    · rw [triple_state h]
      exact hs
    · split at h
      · rw [triple_state h]
        exact hs
      · split at h
        · split at h
          · rw [triple_state h]
            exact hs
          · rw [triple_state h]
            exact hs
        · split at h
          · exact absurd h (by simp)
          · rename_i r2 st2 effs2 hexec
            rw [triple_state h]
            exact execCommand_slotInv hexec hs
  · intro env st st1 effs h hs
    unfold ClientDestructor at h
    split at h
    · rw [pair_state h]
      exact hs
    · split at h
      · exact absurd h (by simp)
      · rename_i r2 st2 effs2 hexec
        rw [pair_state h]
        exact execCommand_slotInv hexec hs

/-- Claim C3 witness: `SetPendingCommand` with a SHUTDOWN and with a NOOP
command leaves the concrete mid-launch state unchanged. -/
theorem claim_C3_witness :
    SetPendingCommand shutdownCommand c1State = c1State ∧
    SetPendingCommand { type := CommandType.NOOP, visible := true, has_output := true }
      c1State = c1State :=
  ⟨claim_C3_slot_invariant.1 shutdownCommand c1State (Or.inr rfl),
   claim_C3_slot_invariant.1 _ c1State (Or.inl rfl)⟩

/-! ### Claim C2 -/

lemma run_fail (now : Nat) (k : FailKind) (t : LauncherState) :
    Run (failRunEnv now k) t =
      some ({ t with last_launch_time := now,
                     renderer_status := failStatus k,
                     error_times := t.error_times + 1 }, failEffects k) := by
  cases k <;> rfl

lemma canConnect_throttle {now : Nat} {s : LauncherState}
    (hst : s.renderer_status = RendererStatus.RENDERER_TIMEOUT ∨
           s.renderer_status = RendererStatus.RENDERER_TERMINATED)
    (h : CanConnect now s = true) :
    s.error_times ≤ kMaxErrorTimes ∧ kRetryIntervalTime ≤ now - s.last_launch_time := by
  rcases hst with hst | hst <;>
    · simp only [CanConnect, hst, Bool.and_eq_true, decide_eq_true_eq] at h
      exact h

lemma trace_bound {s0 : LauncherState} {evs : List ThrottleEvent} {s : LauncherState}
    (h : ThrottleTrace s0 evs s) :
    countRelaunch evs = 0 ∨ countRelaunch evs + s0.error_times ≤ kMaxErrorTimes + 1 := by
  induction h with
  | nil => left; rfl
  | cons hstep htrace ih =>
    rename_i s0' s1' s2' e' evs'
    cases hstep with
    | submit now c hcc =>
        have he : (SetPendingCommand c s0').error_times = s0'.error_times :=
          setPending_error_times c s0'
        have hcount : countRelaunch (ThrottleEvent.submit now c :: evs') = countRelaunch evs' :=
          rfl
        rcases ih with h0 | h0
        · left
          rw [hcount, h0]
        · right
          rw [hcount]
          rw [he] at h0
          exact h0
    | relaunch now k hst hcc hrun =>
        have hguard := canConnect_throttle hst hcc
        rw [run_fail now k _] at hrun
        have hs1 := pair_state hrun
        have herr1 : s1'.error_times = s0'.error_times + 1 := by rw [hs1]
        have hcount : countRelaunch (ThrottleEvent.relaunch now k :: evs') =
            countRelaunch evs' + 1 := rfl
        right
        rw [hcount]
        rcases ih with h0 | h0
        · rw [h0]
          omega
        · rw [herr1] at h0
          omega

/-- Claim C2: in `RENDERER_TIMEOUT` / `RENDERER_TERMINATED`, (1) the
`CanConnect` gate grants only when `error_times_ ≤ 5` and at least 30
seconds have elapsed since the last launch attempt; (2) a launch whose
outcome is one of those states always leaves `error_times_ ≥ 1`; (3) along
any sequence of granted-and-failing relaunches and denied submissions with
no intervening `RENDERER_READY`, starting from any reachable throttled
state (`error_times_ ≥ 1`), at most 5 launches are ever granted. -/
theorem claim_C2_throttled :
    (∀ (now : Nat) (s : LauncherState),
      (s.renderer_status = RendererStatus.RENDERER_TIMEOUT ∨
       s.renderer_status = RendererStatus.RENDERER_TERMINATED) →
      CanConnect now s = true →
      s.error_times ≤ kMaxErrorTimes ∧ kRetryIntervalTime ≤ now - s.last_launch_time) ∧
    (∀ (env : RunEnv) (s s1 : LauncherState) (effs : List Effect),
      Run env s = some (s1, effs) →
      (s1.renderer_status = RendererStatus.RENDERER_TIMEOUT ∨
       s1.renderer_status = RendererStatus.RENDERER_TERMINATED) →
      1 ≤ s1.error_times) ∧
    (∀ (s0 : LauncherState) (evs : List ThrottleEvent) (s : LauncherState),
      ThrottleTrace s0 evs s → 1 ≤ s0.error_times →
      countRelaunch evs ≤ kMaxErrorTimes) := by
  refine ⟨?_, ?_, ?_⟩
  · intro now s hst h
    exact canConnect_throttle hst h
  · intro env s s1 effs h hst
    unfold Run at h
    dsimp only at h
    split at h
    · rw [pair_state h] at hst
      rcases hst with h1 | h1 <;> simp at h1
    · split at h
      · split at h
        · rw [pair_state h]
          simp
        · split at h
          · exact absurd h (by simp)
          · rw [pair_state h] at hst
            rcases hst with h1 | h1 <;> simp at h1
        · rw [pair_state h]
          simp
        · rw [pair_state h] at hst
          rcases hst with h1 | h1 <;> simp at h1
      · split at h
        · exact absurd h (by simp)
        · rw [pair_state h] at hst
          rcases hst with h1 | h1 <;> simp at h1
  · intro s0 evs s h h1
    rcases trace_bound h with h0 | h0
    · rw [h0]
      exact Nat.zero_le _
    · omega

/-- Claim C2 witness: all three parts evaluated on a concrete throttled
state with one failed launch behind it and a relaunch granted at `now = 40`
(more than 30 s after the last attempt). -/
theorem claim_C2_witness :
    (c2Start.error_times ≤ kMaxErrorTimes ∧
     kRetryIntervalTime ≤ 40 - c2Start.last_launch_time) ∧
    1 ≤ c2AfterRun.error_times ∧
    countRelaunch [ThrottleEvent.relaunch 40 FailKind.timeoutFail] ≤ kMaxErrorTimes :=
  ⟨claim_C2_throttled.1 40 c2Start (Or.inl rfl) (by decide),
   claim_C2_throttled.2.1 (failRunEnv 40 FailKind.timeoutFail)
     { c2Start with renderer_status := RendererStatus.RENDERER_LAUNCHING }
     c2AfterRun [] rfl (Or.inl rfl),
   claim_C2_throttled.2.2 c2Start [ThrottleEvent.relaunch 40 FailKind.timeoutFail] c2AfterRun
     (ThrottleTrace.cons
       (ThrottleStep.relaunch 40 FailKind.timeoutFail (Or.inl rfl) (by decide) rfl)
       (ThrottleTrace.nil c2AfterRun))
     (by decide)⟩

end Mozc.Renderer
